import Mathlib

/-!
Verification of the AI-UGC-Maker specification against a shallow embedding of
the repository's code.

The repository is a client-side wizard that calls a hosted generative-media
API and composes generated video clips plus one narration track into a single
recorded video. The embedding below translates, from the source:

* `Gemini.*` — the gateway wrappers in `src/services/geminiService.ts`
  (`determineModelGender`, `extractImageUrl`, `generateAdImages`,
  `generateCaptionAndHashtags`). The hosted provider is abstracted as a
  function argument (`api`) returning `Except`: a provider error in JS is a
  rejected promise, an `Except.error` here.
* `AudioFx.*` — the effects chain of `processAudio` and the WAV header writer
  `audioBufferToWav` in the audio service file.
* `Wizard.*` — the artifact-state updates performed by the step components'
  regeneration handlers in the main app file.
* `Compositor.*` — the sequential compositor `combineVideosAndAudio` in the
  final step: its linear setup/probing pipeline (with an action trace so that
  ordering claims can be stated) and a discrete-time simulation of its three
  event chains (clip playback, narration master clock, render loop), one tick
  per frame interval.
-/

namespace Gemini

/-- The constrained label returned by the gender classifier. -/
inductive Gender where
  | male
  | female
deriving DecidableEq, Repr

/-- Embeds `determineModelGender` (geminiService.ts). The provider call is
abstracted as its outcome `api : Except String String` carrying `response.text`
on success. The JS `try`/`catch` returning `'female'` on any error is the
`Except.error` branch; otherwise the trimmed lowercased text is compared with
`"male"` and everything else defaults to `female`. -/
def determineModelGender (api : Except String String) : Gender :=
  match api with
  | Except.error _ => Gender.female
  | Except.ok text => if text.trim.toLower = "male" then Gender.male else Gender.female

/-- One part of a model response (`candidate.content.parts` in
`extractImageUrl`): either inline image data with a mime type, or text. -/
inductive GenPart where
  | inlineData (data : String) (mimeType : String)
  | textPart (t : String)
deriving DecidableEq, Repr

/-- A provider response as `extractImageUrl` inspects it: the optional
`promptFeedback.blockReason`, and `candidates[0].content.parts` (`none` models
a missing candidate / content / parts chain). -/
structure GenResponse where
  blockReason : Option String
  parts : Option (List GenPart)
deriving DecidableEq, Repr

/-- The `for` loop of `extractImageUrl`: the first part carrying inline data. -/
def findInlineData : List GenPart → Option (String × String)
  | [] => none
  | GenPart.inlineData d m :: _ => some (d, m)
  | GenPart.textPart _ :: rest => findInlineData rest

/-- The `parts.find(p => p.text)` of `extractImageUrl`. -/
def findTextPart : List GenPart → Option String
  | [] => none
  | GenPart.textPart t :: _ => some t
  | GenPart.inlineData _ _ :: rest => findTextPart rest

/-- Embeds `extractImageUrl` (geminiService.ts): blocked requests, missing
parts, inline image data rendered as a data URL, and the two failure
messages for a text-only or empty response. -/
def extractImageUrl (r : GenResponse) : Except String String :=
  match r.blockReason with
  | some reason => Except.error ("Request was blocked: " ++ reason)
  | none =>
    match r.parts with
    | none => Except.error "Invalid response from the model. No content parts found."
    | some ps =>
      match findInlineData ps with
      | some (d, m) => Except.ok ("data:" ++ m ++ ";base64," ++ d)
      | none =>
        match findTextPart ps with
        | some _ => Except.error "The model returned a text response but no image."
        | none => Except.error "No image was generated in the response."

/-- `Promise.all` over settled per-request outcomes: `ok` of the list of
results when every entry is `ok`, otherwise the first error. -/
def promiseAll {ε α : Type} : List (Except ε α) → Except ε (List α)
  | [] => Except.ok []
  | Except.error e :: _ => Except.error e
  | Except.ok a :: rest =>
    match promiseAll rest with
    | Except.error e => Except.error e
    | Except.ok l => Except.ok (a :: l)

/-- The three per-frame prompts built inside `generateAdImages`
(geminiService.ts); the TS template-literal splices of the product name and
the ad script are written as string concatenation. -/
def adImagePrompts (productName adScript : String) : List String :=
  [ "Generate a photorealistic, 9:16 UGC-style image of the **exact same person** from the model image, wearing the **exact same outfit**. The model is holding the **exact same product** (\"" ++ productName ++ "\") for the first time, looking excited and curious. This shot should match the ad script's hook: \"" ++ adScript ++ "\". The setting must be a realistic, everyday environment. IMPORTANT: The product MUST be clearly visible and held by the model. No text/logos. Person, outfit, and product must be identical to the inputs."
  , "Generate the second ad frame, a photorealistic, 9:16 UGC-style image. The **exact same person** (in the **same outfit**) is now actively **using, wearing, or consuming** the **exact same product** (\"" ++ productName ++ "\"). Their face should show genuine happiness and satisfaction, illustrating the product's benefits from the ad script: \"" ++ adScript ++ "\". The focus is on the positive experience of the model using the product. The setting must be logical for the product's use. IMPORTANT: No text/logos. Person, outfit, and product must be identical."
  , "Generate the final ad frame, a photorealistic, 9:16 UGC-style image. The **exact same person** (in the **same outfit**) is happily holding and showing the **exact same product** (\"" ++ productName ++ "\") towards the camera, as if recommending it to a friend. They should look confident and satisfied, matching the call-to-action part of the script: \"" ++ adScript ++ "\". The product is the hero of the shot. IMPORTANT: No text/logos. Person, outfit, and product must be identical." ]

/-- One request of the batch in `generateAdImages`: the provider call for a
prompt (the two reference images are constant across the batch and folded into
`api`), its result fed through `extractImageUrl`; a provider rejection or an
extraction failure both reject the per-prompt promise. -/
def imageRequest (api : String → Except String GenResponse) (prompt : String) :
    Except String String :=
  match api prompt with
  | Except.error e => Except.error e
  | Except.ok r => extractImageUrl r

/-- Embeds `generateAdImages` (geminiService.ts): builds the three prompts,
issues the requests, and joins them with `Promise.all`. -/
def generateAdImages (api : String → Except String GenResponse)
    (adScript productName : String) : Except String (List String) :=
  promiseAll ((adImagePrompts productName adScript).map (imageRequest api))

/-- The JS regex `.` character class as used by `/Caption: (.*)/`: every
character except line terminators. -/
def lineChars (cs : List Char) : List Char :=
  cs.takeWhile (fun c => !(c = '\n' || c = '\r' || c = '\u2028' || c = '\u2029'))

/-- The suffix after the first occurrence of `m` in `cs` (leftmost match of
the marker, as JS `String.match` finds it), or `none` when `m` never occurs. -/
def afterFirst (m : List Char) : List Char → Option (List Char)
  | [] => if m.isEmpty then some [] else none
  | c :: t =>
    if m.isPrefixOf (c :: t) then some ((c :: t).drop m.length)
    else afterFirst m t

/-- `text.match(new RegExp(marker + "(.*)"))?.[1]` for a literal marker: the
capture of the first match, or `none` when the marker does not occur. -/
def regexLineCapture (marker text : String) : Option String :=
  (afterFirst marker.data text.data).map (fun rest => String.mk (lineChars rest))

/-- Embeds `generateCaptionAndHashtags` (geminiService.ts). On provider error
the fixed Indonesian fallback pair is returned (never rethrown); on success
the `Caption:` / `Hashtags:` lines are extracted with per-field defaults. -/
def generateCaptionAndHashtags (productName productDescription : String)
    (api : Except String String) : String × String :=
  match api with
  | Except.error _ =>
    ("Wajib coba " ++ productName ++ "! âœ¨",
     "#fyp #racuntiktok #productreview #xyzbca #tiktokmademebuyit")
  | Except.ok text =>
    let caption :=
      match regexLineCapture "Caption: " text with
      | some c => c.trim
      | none => "Check this out!"
    let hashtags :=
      match regexLineCapture "Hashtags: " text with
      | some h => h.trim
      | none => "#fyp #racuntiktok"
    (caption, hashtags)

end Gemini

namespace AudioFx

/-- A node of the offline audio graph built by `processAudio`
(audio service file), carrying the parameters the code sets: the source's
playback rate; the compressor's threshold, knee, compression quotient, attack
and release; the gain node's gain value. -/
inductive AudioNode where
  | source (playbackRate : ℚ)
  | compressor (threshold : ℚ) (knee : ℚ) (quot : ℚ) (attack : ℚ) (release : ℚ)
  | gain (value : ℚ)
deriving DecidableEq, Repr

/-- Embeds the effect-graph construction of `processAudio`: the buffer source
(playback rate 1.3 for voice `leda`, otherwise the default 1), a dynamics
compressor inserted only for style `berbisik` with the code's five parameters,
and the final gain node (1.5 for `teriak`, 2.5 for `berbisik`, otherwise the
`createGain` default of 1), in connection order. -/
def processAudioChain (style voiceName : String) : List AudioNode :=
  let rate : ℚ := if voiceName = "leda" then 13 / 10 else 1
  let chain := [AudioNode.source rate]
  let chain :=
    if style = "berbisik" then
      chain ++ [AudioNode.compressor (-40) 30 12 (3 / 1000) (1 / 4)]
    else chain
  let g : ℚ :=
    if style = "teriak" then 3 / 2
    else if style = "berbisik" then 5 / 2
    else 1
  chain ++ [AudioNode.gain g]

/-- The format fields `audioBufferToWav` writes into the RIFF header. -/
structure WavHeader where
  audioFormat : Nat
  numChannels : Nat
  sampleRate : Nat
  byteRate : Nat
  blockAlign : Nat
  bitsPerSample : Nat
deriving DecidableEq, Repr

/-- Embeds the header written by `audioBufferToWav`: PCM format 1 and
`bitDepth = 16`, with byte rate and block align derived from them. -/
def audioBufferToWavHeader (numChannels sampleRate : Nat) : WavHeader :=
  { audioFormat := 1
  , numChannels := numChannels
  , sampleRate := sampleRate
  , byteRate := sampleRate * numChannels * (16 / 8)
  , blockAlign := numChannels * (16 / 8)
  , bitsPerSample := 16 }

end AudioFx

namespace Wizard

/-- The wizard artifacts the regeneration handlers touch: the ad script and
narration audio URL (step 3 state), the scene images and scene videos (step 4
state), and the final composed video URL (step 5 state). -/
structure WizardState where
  script : String
  audioUrl : Option String
  adImages : List String
  adVideos : List String
  finalVideoUrl : Option String
deriving DecidableEq, Repr

/-- The synchronous state reset at the start of `handleGenerateScript`:
`setAdsCopy(ac => ({ ...ac, script: '', audioUrl: null }))`. -/
def handleGenerateScriptStart (s : WizardState) : WizardState :=
  { s with script := "", audioUrl := none }

/-- The success update of `handleGenerateScript`: store the new script. -/
def handleGenerateScriptSuccess (newScript : String) (s : WizardState) : WizardState :=
  { s with script := newScript }

/-- A successful run of `handleGenerateScript`: the initial clear followed by
storing the generated script. -/
def handleGenerateScript (newScript : String) (s : WizardState) : WizardState :=
  handleGenerateScriptSuccess newScript (handleGenerateScriptStart s)

/-- The success update of `handleRegenerateImage`: replace the regenerated
scene image and reset `adVideos` to `[]`. -/
def handleRegenerateImage (i : Nat) (url : String) (s : WizardState) : WizardState :=
  { s with adImages := s.adImages.set i url, adVideos := [] }

/-- The success update of `handleRegenerateVideo`: replace the regenerated
scene video; no other field of the app state is written. -/
def handleRegenerateVideo (i : Nat) (url : String) (s : WizardState) : WizardState :=
  { s with adVideos := s.adVideos.set i url }

end Wizard

namespace Compositor

/-- The content of the shared canvas after a draw: which clip was drawn and
the playback position (in frame ticks) of the frame shown. -/
structure Frame where
  clip : Nat
  pos : Nat
deriving DecidableEq, Repr

/-- The mutable state of one composition run, as the event handlers of
`combineVideosAndAudio` read and write it: `currentVideoIndex`, the tick at
which the currently active clip started playing, whether the recorder is
still recording, the tick at which `recorder.stop()` was called, the canvas
content, and the frames captured into the recording so far (one per render
tick while recording). -/
structure SimState where
  idx : Nat
  clipStart : Nat
  recording : Bool
  stoppedAt : Option Nat
  canvas : Option Frame
  frames : List (Option Frame)
deriving DecidableEq, Repr

/-- `playNextVideo` of `combineVideosAndAudio`: if `currentVideoIndex` has
moved past the clip list, return without starting anything; otherwise start
the clip at the current index from its beginning (`video.currentTime = 0;
video.play()`), recorded here as the clip's start tick. -/
def playNextVideo (n t : Nat) (s : SimState) : SimState :=
  if n ≤ s.idx then s else { s with clipStart := t }

/-- The `video.onended` handler installed by `playNextVideo`: advance
`currentVideoIndex` and call `playNextVideo` again. -/
def videoOnEnded (n t : Nat) (s : SimState) : SimState :=
  playNextVideo n t { s with idx := s.idx + 1 }

/-- The `audioSource.onended` handler: when narration playback ends, stop the
recorder if (and only if) it is still recording. -/
def audioOnEnded (t : Nat) (s : SimState) : SimState :=
  if s.recording then { s with recording := false, stoppedAt := some t } else s

/-- The `videoToDraw` selection of `renderLoop`:
`videos[currentVideoIndex] || videos[videos.length - 1]`. A still-active clip
shows its current playback position; past the end of the list the last clip
is drawn, and having ended it shows its final frame; with no clips at all
nothing is drawn (`none`). -/
def drawFrame (n : Nat) (ds : Nat → Nat) (t : Nat) (s : SimState) : Option Frame :=
  if s.idx < n then some ⟨s.idx, t - s.clipStart⟩
  else if n = 0 then none
  else some ⟨n - 1, ds (n - 1)⟩

/-- One pass of `renderLoop`: draw the selected frame into the shared canvas
(when there is nothing to draw, `ctx.drawImage` is skipped and the canvas
keeps its previous content) and capture the canvas into the recording. -/
def renderLoop (n : Nat) (ds : Nat → Nat) (t : Nat) (s : SimState) : SimState :=
  let c :=
    match drawFrame n ds t s with
    | some f => some f
    | none => s.canvas
  { s with canvas := c, frames := s.frames ++ [c] }

/-- The clip-playback chain at tick `t`: the active clip's `onended` fires
exactly when its playback position reaches its duration. -/
def clipPhase (n : Nat) (ds : Nat → Nat) (t : Nat) (s : SimState) : SimState :=
  if s.idx < n ∧ t = s.clipStart + ds s.idx then videoOnEnded n t s else s

/-- The narration master clock at tick `t`: `audioSource.onended` fires when
playback reaches the narration duration `T` (the buffer was started at 0). -/
def narrationPhase (T t : Nat) (s : SimState) : SimState :=
  if t = T then audioOnEnded t s else s

/-- The render/capture chain at tick `t`: the animation-frame callback keeps
running while the recorder records; `recorder.onstop` cancels it. -/
def renderPhase (n : Nat) (ds : Nat → Nat) (t : Nat) (s : SimState) : SimState :=
  if s.recording then renderLoop n ds t s else s

/-- One frame interval of the composition run: the three independently
progressing activities of the source (clip playback chain, narration
playback, render loop), interleaved in event order within the tick. -/
def tick (n T : Nat) (ds : Nat → Nat) (t : Nat) (s : SimState) : SimState :=
  renderPhase n ds t (narrationPhase T t (clipPhase n ds t s))

/-- The state right after `recorder.start(); audioSource.start(0);
playNextVideo()`: recording, nothing captured, first clip started at tick 0. -/
def initState (n : Nat) : SimState :=
  playNextVideo n 0
    { idx := 0, clipStart := 0, recording := true, stoppedAt := none
    , canvas := none, frames := [] }

/-- Run the composition from tick `t` for the given number of ticks. -/
def simFrom (n T : Nat) (ds : Nat → Nat) : Nat → SimState → Nat → SimState
  | _, s, 0 => s
  | t, s, Nat.succ k => simFrom n T ds (t + 1) (tick n T ds t s) k

/-- A full fault-free composition run over `n` clips of durations `ds`
(in ticks) against a narration of duration `T` ticks: ticks `0 … T`. -/
def runSim (n T : Nat) (ds : Nat → Nat) : SimState :=
  simFrom n T ds 0 (initState n) (T + 1)

/-- The ordered output-format preference list `mimeTypesToTry` of
`combineVideosAndAudio`, verbatim. -/
def mimeTypesToTry : List String :=
  [ "video/mp4; codecs=\"avc1.42E01E, mp4a.40.2\""
  , "video/mp4"
  , "video/webm; codecs=\"vp8, opus\""
  , "video/webm" ]

/-- Whether `sub` occurs inside `hay`: JS `String.includes`. -/
def strIncludes (hay sub : String) : Bool :=
  (Gemini.afterFirst sub.data hay.data).isSome

/-- The platform facts one composition attempt observes: whether
`canvas.getContext('2d')` succeeds, the outcome of fetching and decoding the
narration (its duration on success), the outcome of loading each clip element
(its duration on success), `MediaRecorder.isTypeSupported`, whether the
recorder fires `onerror` during the session, and the sizes of the data chunks
`ondataavailable` delivers. -/
structure MediaEnv where
  ctxOk : Bool
  audioDecode : Option Nat
  videoLoads : List (Option Nat)
  isTypeSupported : String → Bool
  fault : Bool
  dataChunks : List Nat

/-- The failure exits of `combineVideosAndAudio`, one per `throw`/`reject`. -/
inductive CompErr where
  | canvasContext
  | narrationDecode
  | clipLoad
  | unsupportedFormat
  | recorderError
  | emptyRecording
deriving DecidableEq, Repr

/-- The observable work steps of one composition attempt, in the order the
source performs them, so that ordering claims can be stated over the trace. -/
inductive Action where
  | decodeNarration
  | loadClip (i : Nat)
  | probeFormat
  | createRecorder
  | startRecorder
  | startNarration
  | stopRecorder
deriving DecidableEq, Repr

/-- The join of the clip-loading promises inside `Promise.all`: all clip
durations when every load succeeded, `none` as soon as any failed. -/
def sequenceLoads : List (Option Nat) → Option (List Nat)
  | [] => some []
  | none :: _ => none
  | some d :: rest =>
    match sequenceLoads rest with
    | none => none
    | some l => some (d :: l)

/-- The final blob and chosen file extension resolved by `recorder.onstop`. -/
structure CompOutput where
  blobChunks : List Nat
  extension : String
deriving DecidableEq, Repr

/-- Embeds the linear control flow of `combineVideosAndAudio` with the trace
of performed actions. In source order: the canvas context check; the
`Promise.all` that fetches/decodes the narration and loads every clip (all of
these requests are started together, so the decode and every load appear in
the trace whichever branch rejects; when both the narration and a clip fail
the combined promise settles with one of the two rejections — the narration
one is chosen here); the `mimeTypesToTry` probe with its capability error;
recorder creation and start together with narration start; the recorder
fault path; and `onstop`, which drops empty chunks (`e.data.size > 0`),
rejects when nothing was captured and otherwise resolves the blob with the
extension chosen by `supportedMimeType.includes('webm')`. -/
def combineVideosAndAudio (p : MediaEnv) : List Action × Except CompErr CompOutput :=
  if p.ctxOk = false then
    ([], Except.error CompErr.canvasContext)
  else
    let loadActs := Action.decodeNarration :: (List.range p.videoLoads.length).map Action.loadClip
    match p.audioDecode, sequenceLoads p.videoLoads with
    | none, _ => (loadActs, Except.error CompErr.narrationDecode)
    | some _, none => (loadActs, Except.error CompErr.clipLoad)
    | some _T, some _durs =>
      match mimeTypesToTry.find? p.isTypeSupported with
      | none => (loadActs ++ [Action.probeFormat], Except.error CompErr.unsupportedFormat)
      | some mime =>
        let recActs := loadActs ++
          [Action.probeFormat, Action.createRecorder, Action.startRecorder, Action.startNarration]
        if p.fault then
          (recActs, Except.error CompErr.recorderError)
        else
          let chunks := p.dataChunks.filter (fun sz => decide (0 < sz))
          if chunks.isEmpty then
            (recActs ++ [Action.stopRecorder], Except.error CompErr.emptyRecording)
          else
            (recActs ++ [Action.stopRecorder],
             Except.ok { blobChunks := chunks
                       , extension := if strIncludes mime "webm" then "webm" else "mp4" })

/-- The composition's result (second component of the source's returned
promise outcome). -/
def combineResult (p : MediaEnv) : Except CompErr CompOutput :=
  ( combineVideosAndAudio p).2

/-- The composition's performed-action trace. -/
def combineTrace (p : MediaEnv) : List Action :=
  ( combineVideosAndAudio p).1

end Compositor

namespace Compositor

theorem playNextVideo_recording (n t : Nat) (s : SimState) :
    (playNextVideo n t s).recording = s.recording := by
  unfold playNextVideo; split <;> rfl

theorem playNextVideo_stoppedAt (n t : Nat) (s : SimState) :
    (playNextVideo n t s).stoppedAt = s.stoppedAt := by
  unfold playNextVideo; split <;> rfl

theorem playNextVideo_frames (n t : Nat) (s : SimState) :
    (playNextVideo n t s).frames = s.frames := by
  unfold playNextVideo; split <;> rfl

theorem videoOnEnded_recording (n t : Nat) (s : SimState) :
    (videoOnEnded n t s).recording = s.recording := by
  unfold videoOnEnded; rw [playNextVideo_recording]

theorem videoOnEnded_stoppedAt (n t : Nat) (s : SimState) :
    (videoOnEnded n t s).stoppedAt = s.stoppedAt := by
  unfold videoOnEnded; rw [playNextVideo_stoppedAt]

theorem videoOnEnded_frames (n t : Nat) (s : SimState) :
    (videoOnEnded n t s).frames = s.frames := by
  unfold videoOnEnded; rw [playNextVideo_frames]

theorem clipPhase_recording (n : Nat) (ds : Nat → Nat) (t : Nat) (s : SimState) :
    (clipPhase n ds t s).recording = s.recording := by
  unfold clipPhase; split
  · exact videoOnEnded_recording n t s
  · rfl

theorem clipPhase_stoppedAt (n : Nat) (ds : Nat → Nat) (t : Nat) (s : SimState) :
    (clipPhase n ds t s).stoppedAt = s.stoppedAt := by
  unfold clipPhase; split
  · exact videoOnEnded_stoppedAt n t s
  · rfl

theorem clipPhase_frames (n : Nat) (ds : Nat → Nat) (t : Nat) (s : SimState) :
    (clipPhase n ds t s).frames = s.frames := by
  unfold clipPhase; split
  · exact videoOnEnded_frames n t s
  · rfl

theorem renderLoop_recording (n : Nat) (ds : Nat → Nat) (t : Nat) (s : SimState) :
    (renderLoop n ds t s).recording = s.recording := rfl

theorem renderLoop_stoppedAt (n : Nat) (ds : Nat → Nat) (t : Nat) (s : SimState) :
    (renderLoop n ds t s).stoppedAt = s.stoppedAt := rfl

theorem renderLoop_frames_length (n : Nat) (ds : Nat → Nat) (t : Nat) (s : SimState) :
    (renderLoop n ds t s).frames.length = s.frames.length + 1 := by
  unfold renderLoop; simp

theorem narrationPhase_frames (T t : Nat) (s : SimState) :
    (narrationPhase T t s).frames = s.frames := by
  unfold narrationPhase audioOnEnded
  split
  · split <;> rfl
  · rfl

/-- Before the narration's natural end, one tick keeps recording, keeps the
stop mark untouched, and captures exactly one more frame. -/
theorem tick_before_end (n T : Nat) (ds : Nat → Nat) (t : Nat) (s : SimState)
    (hne : t ≠ T) (hr : s.recording = true) :
    (tick n T ds t s).recording = true ∧
    (tick n T ds t s).stoppedAt = s.stoppedAt ∧
    (tick n T ds t s).frames.length = s.frames.length + 1 := by
  unfold tick narrationPhase
  rw [if_neg hne]
  have h1 : (clipPhase n ds t s).recording = true := by
    rw [clipPhase_recording]; exact hr
  unfold renderPhase
  rw [if_pos h1]
  refine ⟨?_, ?_, ?_⟩
  · rw [renderLoop_recording]; exact h1
  · rw [renderLoop_stoppedAt, clipPhase_stoppedAt]
  · rw [renderLoop_frames_length, clipPhase_frames]

/-- At the tick where narration playback reaches its natural end, the
recorder is stopped (with the stop mark at that tick) and no further frame
is captured. -/
theorem tick_at_end (n T : Nat) (ds : Nat → Nat) (s : SimState)
    (hr : s.recording = true) :
    (tick n T ds T s).recording = false ∧
    (tick n T ds T s).stoppedAt = some T ∧
    (tick n T ds T s).frames = s.frames := by
  unfold tick narrationPhase
  rw [if_pos rfl]
  have h1 : (clipPhase n ds T s).recording = true := by
    rw [clipPhase_recording]; exact hr
  unfold audioOnEnded
  rw [if_pos h1]
  unfold renderPhase
  rw [if_neg (by simp)]
  refine ⟨rfl, rfl, ?_⟩
  exact clipPhase_frames n ds T s

theorem initState_recording (n : Nat) : (initState n).recording = true := by
  unfold initState; rw [playNextVideo_recording]

theorem initState_stoppedAt (n : Nat) : (initState n).stoppedAt = none := by
  unfold initState; rw [playNextVideo_stoppedAt]

theorem initState_frames (n : Nat) : (initState n).frames = [] := by
  unfold initState; rw [playNextVideo_frames]

/-- The run invariant: starting a still-recording run at tick `t` with `t`
frames already captured and `T - t` ticks to go before the narration ends,
the run stops exactly at `T` having captured exactly `T` frames. -/
theorem simFrom_run (n T : Nat) (ds : Nat → Nat) :
    ∀ k t s, t + k = T → s.recording = true → s.stoppedAt = none →
      s.frames.length = t →
      (simFrom n T ds t s (k + 1)).stoppedAt = some T ∧
      (simFrom n T ds t s (k + 1)).frames.length = T ∧
      (simFrom n T ds t s (k + 1)).recording = false := by
  intro k
  induction k with
  | zero =>
    intro t s ht hr hst hf
    have hT : t = T := by omega
    subst hT
    simp only [simFrom]
    obtain ⟨h1, h2, h3⟩ := tick_at_end n t ds s hr
    refine ⟨h2, ?_, h1⟩
    rw [h3, hf]
  | succ k ih =>
    intro t s ht hr hst hf
    have hne : t ≠ T := by omega
    simp only [simFrom]
    obtain ⟨h1, h2, h3⟩ := tick_before_end n T ds t s hne hr
    exact ih (t + 1) (tick n T ds t s) (by omega) h1 (by rw [h2]; exact hst)
      (by rw [h3, hf])

theorem drawFrame_ne_none (n : Nat) (ds : Nat → Nat) (t : Nat) (s : SimState)
    (hn : 1 ≤ n) : drawFrame n ds t s ≠ none := by
  unfold drawFrame
  split
  · simp
  · split
    · omega
    · simp

/-- One tick never appends a blank frame to the capture (for a non-empty
clip list). -/
theorem tick_keeps_frames_drawn (n T : Nat) (ds : Nat → Nat) (t : Nat)
    (s : SimState) (hn : 1 ≤ n) (h : ∀ f ∈ s.frames, f ≠ none) :
    ∀ f ∈ (tick n T ds t s).frames, f ≠ none := by
  intro f hf
  unfold tick renderPhase at hf
  split at hf
  · unfold renderLoop at hf
    simp only [List.mem_append, List.mem_singleton] at hf
    rcases hf with hf | hf
    · rw [narrationPhase_frames, clipPhase_frames] at hf
      exact h f hf
    · subst hf
      cases hd : drawFrame n ds t (narrationPhase T t (clipPhase n ds t s)) with
      | none => exact absurd hd (drawFrame_ne_none n ds t _ hn)
      | some fr => simp [hd]
  · rw [narrationPhase_frames, clipPhase_frames] at hf
    exact h f hf

theorem simFrom_frames_drawn (n T : Nat) (ds : Nat → Nat) (hn : 1 ≤ n) :
    ∀ k t s, (∀ f ∈ s.frames, f ≠ none) →
      ∀ f ∈ (simFrom n T ds t s k).frames, f ≠ none := by
  intro k
  induction k with
  | zero => intro t s h; exact h
  | succ k ih =>
    intro t s h
    simp only [simFrom]
    exact ih (t + 1) (tick n T ds t s) (tick_keeps_frames_drawn n T ds t s hn h)

end Compositor

/-- Claim C1: in a fault-free composition run (every clip loaded, no
recorder fault — the run modelled by `runSim`), the recorder is stopped
exactly when narration playback reaches its natural end `T` and by no other
event (in particular, no tick before `T` stops it), so for any non-empty
clip sequence the composed output holds exactly `T` frame intervals of
capture, with no constraint relating the clip durations `ds` to `T`. -/
theorem c1_narration_end_stops_recorder (n T : Nat) (ds : Nat → Nat)
    (hn : 1 ≤ n) :
    (Compositor.runSim n T ds).stoppedAt = some T ∧
    (Compositor.runSim n T ds).frames.length = T ∧
    (Compositor.runSim n T ds).recording = false ∧
    (∀ (t : Nat) (s : Compositor.SimState), t ≠ T → s.recording = true →
      (Compositor.tick n T ds t s).recording = true) := by
  have h := Compositor.simFrom_run n T ds T 0 (Compositor.initState n)
    (by omega) (Compositor.initState_recording n) (Compositor.initState_stoppedAt n)
    (by rw [Compositor.initState_frames]; rfl)
  unfold Compositor.runSim
  refine ⟨h.1, h.2.1, h.2.2, ?_⟩
  intro t s hne hr
  exact (Compositor.tick_before_end n T ds t s hne hr).1

/-- Witness for C1 at a concrete input: three clips of durations 2, 3 and 4
ticks (summing to 9) against a narration of 6 ticks. -/
theorem c1_witness :
    (Compositor.runSim 3 6 (fun i => i + 2)).stoppedAt = some 6 ∧
    (Compositor.runSim 3 6 (fun i => i + 2)).frames.length = 6 ∧
    (Compositor.runSim 3 6 (fun i => i + 2)).recording = false :=
  ⟨(c1_narration_end_stops_recorder 3 6 (fun i => i + 2) (by decide)).1,
   (c1_narration_end_stops_recorder 3 6 (fun i => i + 2) (by decide)).2.1,
   (c1_narration_end_stops_recorder 3 6 (fun i => i + 2) (by decide)).2.2.1⟩

/-- Claim C2: for a non-empty clip list, every captured frame of a run is a
drawn frame, never blank; and at every render tick taken while recording
with the active-clip index already past the last clip, the frame drawn (and
captured) is the last clip's final frame — the freeze-frame. -/
theorem c2_freeze_frame_never_blank (n T : Nat) (ds : Nat → Nat)
    (hn : 1 ≤ n) :
    (∀ f ∈ (Compositor.runSim n T ds).frames, f ≠ none) ∧
    (∀ (t : Nat) (s : Compositor.SimState), s.recording = true → t ≠ T →
      n ≤ s.idx →
      (Compositor.tick n T ds t s).frames
        = s.frames ++ [some ⟨n - 1, ds (n - 1)⟩]) := by
  constructor
  · unfold Compositor.runSim
    apply Compositor.simFrom_frames_drawn n T ds hn (T + 1) 0
    rw [Compositor.initState_frames]
    intro f hf
    exact absurd hf (List.not_mem_nil f)
  · intro t s hr hne hidx
    have hcp : Compositor.clipPhase n ds t s = s := by
      unfold Compositor.clipPhase
      rw [if_neg]
      intro hc
      exact absurd hc.1 (by omega)
    have hdf : Compositor.drawFrame n ds t s
        = some ⟨n - 1, ds (n - 1)⟩ := by
      unfold Compositor.drawFrame
      rw [if_neg (by omega), if_neg (by omega)]
    unfold Compositor.tick Compositor.narrationPhase
    rw [if_neg hne, hcp]
    unfold Compositor.renderPhase
    rw [if_pos hr]
    unfold Compositor.renderLoop
    simp [hdf]

/-- Witness for C2 at a concrete input: a run with three clips against a
6-tick narration has only drawn frames, and a tick taken past the end of the
clip list captures the last clip's final frame. -/
theorem c2_witness :
    (Compositor.tick 3 6 (fun i => i + 2) 5
        { idx := 3, clipStart := 5, recording := true, stoppedAt := none
        , canvas := none, frames := [] }).frames
      = [] ++ [some ⟨2, 4⟩] :=
  (c2_freeze_frame_never_blank 3 6 (fun i => i + 2) (by decide)).2 5
    { idx := 3, clipStart := 5, recording := true, stoppedAt := none
    , canvas := none, frames := [] } rfl (by decide) (by decide)

namespace Compositor

/-- A clip that failed to load makes the `Promise.all` join fail. -/
theorem sequenceLoads_of_failed (vs : List (Option Nat)) :
    ∀ i : Nat, vs[i]? = some none → sequenceLoads vs = none := by
  induction vs with
  | nil => intro i h; simp at h
  | cons v t ih =>
    intro i h
    cases i with
    | zero =>
      simp at h
      subst h
      rfl
    | succ j =>
      simp at h
      cases v with
      | none => rfl
      | some d =>
        unfold sequenceLoads
        rw [ih j h]

end Compositor

/-- Claim C3, counterexample: a concrete platform on which no entry of the
format preference list is supported still performs the narration decode and
every clip load before failing with the capability error — so the failure is
not "before any audio decoding or clip loading work is performed" as the
claim states. -/
theorem c3_counterexample :
    Compositor.combineResult
        { ctxOk := true, audioDecode := some 6
        , videoLoads := [some 2, some 3, some 4]
        , isTypeSupported := fun _ => false, fault := false
        , dataChunks := [100] }
      = Except.error Compositor.CompErr.unsupportedFormat ∧
    Compositor.Action.decodeNarration ∈ Compositor.combineTrace
        { ctxOk := true, audioDecode := some 6
        , videoLoads := [some 2, some 3, some 4]
        , isTypeSupported := fun _ => false, fault := false
        , dataChunks := [100] } ∧
    Compositor.Action.loadClip 0 ∈ Compositor.combineTrace
        { ctxOk := true, audioDecode := some 6
        , videoLoads := [some 2, some 3, some 4]
        , isTypeSupported := fun _ => false, fault := false
        , dataChunks := [100] } := by
  refine ⟨rfl, by decide, by decide⟩

/-- Claim C3 as amended: when no entry of the ordered output-format
preference list is supported (and the media downloads themselves succeed),
the composition fails with the capability error after the narration decode
and clip loads but before the recorder is created or started and before any
recording work is performed. -/
theorem c3_capability_failure_before_recording (p : Compositor.MediaEnv)
    (hctx : p.ctxOk = true)
    (ad : Nat) (ha : p.audioDecode = some ad)
    (ld : List Nat) (hl : Compositor.sequenceLoads p.videoLoads = some ld)
    (hm : Compositor.mimeTypesToTry.find? p.isTypeSupported = none) :
    Compositor.combineResult p = Except.error Compositor.CompErr.unsupportedFormat ∧
    Compositor.Action.createRecorder ∉ Compositor.combineTrace p ∧
    Compositor.Action.startRecorder ∉ Compositor.combineTrace p ∧
    Compositor.Action.stopRecorder ∉ Compositor.combineTrace p := by
  unfold Compositor.combineResult Compositor.combineTrace
    Compositor.combineVideosAndAudio
  rw [hctx, ha, hl, hm]
  simp

/-- Witness for the amended C3 at a concrete platform supporting none of the
four candidate formats. -/
theorem c3_witness :
    Compositor.combineResult
        { ctxOk := true, audioDecode := some 6
        , videoLoads := [some 2, some 3, some 4]
        , isTypeSupported := fun _ => false, fault := false
        , dataChunks := [] }
      = Except.error Compositor.CompErr.unsupportedFormat :=
  (c3_capability_failure_before_recording
    { ctxOk := true, audioDecode := some 6
    , videoLoads := [some 2, some 3, some 4]
    , isTypeSupported := fun _ => false, fault := false
    , dataChunks := [] }
    rfl 6 rfl [2, 3, 4] (by decide) (by decide)).1

/-- Claim C4: when the recorder stops having delivered zero data chunks and
no recorder fault fired (and setup succeeded), the composition rejects with
the empty-recording failure — it does not resolve with an output. -/
theorem c4_zero_chunks_reject (p : Compositor.MediaEnv)
    (hctx : p.ctxOk = true)
    (ad : Nat) (ha : p.audioDecode = some ad)
    (ld : List Nat) (hl : Compositor.sequenceLoads p.videoLoads = some ld)
    (m : String) (hm : Compositor.mimeTypesToTry.find? p.isTypeSupported = some m)
    (hf : p.fault = false) (hc : p.dataChunks = []) :
    Compositor.combineResult p = Except.error Compositor.CompErr.emptyRecording ∧
    ∀ out, Compositor.combineResult p ≠ Except.ok out := by
  unfold Compositor.combineResult Compositor.combineVideosAndAudio
  rw [hctx, ha, hl, hm, hf, hc]
  simp

/-- Witness for C4 at a concrete platform delivering no chunks. -/
theorem c4_witness :
    Compositor.combineResult
        { ctxOk := true, audioDecode := some 6
        , videoLoads := [some 2, some 3, some 4]
        , isTypeSupported := fun _ => true, fault := false
        , dataChunks := [] }
      = Except.error Compositor.CompErr.emptyRecording :=
  (c4_zero_chunks_reject
    { ctxOk := true, audioDecode := some 6
    , videoLoads := [some 2, some 3, some 4]
    , isTypeSupported := fun _ => true, fault := false
    , dataChunks := [] }
    rfl 6 rfl [2, 3, 4] (by decide)
    "video/mp4; codecs=\"avc1.42E01E, mp4a.40.2\"" (by decide) rfl rfl).1

/-- Claim C5: if any clip in the input sequence fails to load/decode, the
whole composition aborts with a failure and never resolves with an output
blob. -/
theorem c5_clip_load_failure_aborts (p : Compositor.MediaEnv) (i : Nat)
    (h : p.videoLoads[i]? = some none) :
    (∃ e, Compositor.combineResult p = Except.error e) ∧
    ∀ out, Compositor.combineResult p ≠ Except.ok out := by
  have hs : Compositor.sequenceLoads p.videoLoads = none :=
    Compositor.sequenceLoads_of_failed p.videoLoads i h
  unfold Compositor.combineResult Compositor.combineVideosAndAudio
  rw [hs]
  cases hctx : p.ctxOk with
  | false => simp
  | true =>
    cases ha : p.audioDecode with
    | none => simp
    | some d => simp

/-- Witness for C5 at a concrete platform where the second clip failed. -/
theorem c5_witness :
    ∃ e, Compositor.combineResult
        { ctxOk := true, audioDecode := some 6
        , videoLoads := [some 2, none, some 4]
        , isTypeSupported := fun _ => true, fault := false
        , dataChunks := [100] }
      = Except.error e :=
  (c5_clip_load_failure_aborts
    { ctxOk := true, audioDecode := some 6
    , videoLoads := [some 2, none, some 4]
    , isTypeSupported := fun _ => true, fault := false
    , dataChunks := [100] }
    1 (by decide)).1

/-- Claim C6, counterexample: on a concrete state holding a composed final
video, a successful scene-video regeneration leaves the final composed video
in place — the claim's third part (regenerating a scene video clears the
final composed video) is false on the code, whose `handleRegenerateVideo`
success path writes only `adVideos`. -/
theorem c6_counterexample :
    (Wizard.handleRegenerateVideo 0 "vid1-new.mp4"
        { script := "naskah", audioUrl := some "narration.wav"
        , adImages := ["img1.png", "img2.png", "img3.png"]
        , adVideos := ["vid1.mp4", "vid2.mp4", "vid3.mp4"]
        , finalVideoUrl := some "final.mp4" }).finalVideoUrl ≠ none := by
  decide

/-- Claim C6 as amended: regenerating the script clears the narration audio
and regenerating a scene image clears all scene videos, but regenerating a
scene video leaves the final composed video exactly as it was (it does not
clear it). -/
theorem c6_amended_invalidation (s : Wizard.WizardState) (ns url : String)
    (i : Nat) :
    (Wizard.handleGenerateScript ns s).audioUrl = none ∧
    (Wizard.handleRegenerateImage i url s).adVideos = [] ∧
    (Wizard.handleRegenerateVideo i url s).finalVideoUrl = s.finalVideoUrl :=
  ⟨rfl, rfl, rfl⟩

namespace Gemini

/-- `Promise.all` resolves only with the full in-order list of results. -/
theorem promiseAll_ok_elim {ε α : Type} :
    ∀ (rs : List (Except ε α)) (l : List α),
      promiseAll rs = Except.ok l → rs = l.map Except.ok := by
  intro rs
  induction rs with
  | nil =>
    intro l h
    simp only [promiseAll] at h
    cases h
    rfl
  | cons r t ih =>
    intro l h
    cases r with
    | error e => simp [promiseAll] at h
    | ok a =>
      simp only [promiseAll] at h
      cases hp : promiseAll t with
      | error e => rw [hp] at h; simp at h
      | ok l2 =>
        rw [hp] at h
        simp at h
        rw [← h, List.map_cons, ih l2 hp]

/-- `Promise.all` over all-resolved promises resolves with their results. -/
theorem promiseAll_ok_intro {ε α : Type} (l : List α) :
    promiseAll (l.map (Except.ok : α → Except ε α)) = Except.ok l := by
  induction l with
  | nil => rfl
  | cons b bt ih => simp only [List.map_cons, promiseAll, ih]

/-- `Promise.all` rejects with the first rejection among the settled
outcomes. -/
theorem promiseAll_first_error {ε α : Type} :
    ∀ (rs : List (Except ε α)) (i : Nat) (e : ε),
      rs[i]? = some (Except.error e) →
      (∀ j : Nat, j < i → ∀ r, rs[j]? = some r → ∃ a, r = Except.ok a) →
      promiseAll rs = Except.error e := by
  intro rs
  induction rs with
  | nil => intro i e h _; simp at h
  | cons r t ih =>
    intro i e h hprev
    cases i with
    | zero =>
      simp at h
      subst h
      rfl
    | succ j =>
      obtain ⟨a, ha⟩ := hprev 0 (Nat.succ_pos j) r (by simp)
      subst ha
      simp only [promiseAll]
      have hrec := ih j e (by simpa using h)
        (fun j' hj' r' hg => hprev (j' + 1) (by omega) r' (by simpa using hg))
      rw [hrec]

end Gemini

/-- Claim C7: the batch image generation resolves with a result list exactly
when every one of its per-prompt requests succeeded, the list then being the
three URLs in prompt order (never a partial batch); and when a request fails
(the earlier ones having succeeded) the whole operation rejects with that
very failure. -/
theorem c7_batch_all_or_nothing (api : String → Except String Gemini.GenResponse)
    (adScript productName : String) :
    (∀ l, Gemini.generateAdImages api adScript productName = Except.ok l ↔
        (Gemini.adImagePrompts productName adScript).map (Gemini.imageRequest api)
          = l.map Except.ok) ∧
    (∀ l, Gemini.generateAdImages api adScript productName = Except.ok l →
        l.length = 3) ∧
    (∀ (i : Nat) (e : String),
        ((Gemini.adImagePrompts productName adScript).map (Gemini.imageRequest api))[i]?
          = some (Except.error e) →
        (∀ j : Nat, j < i → ∀ r,
          ((Gemini.adImagePrompts productName adScript).map (Gemini.imageRequest api))[j]?
            = some r → ∃ a, r = Except.ok a) →
        Gemini.generateAdImages api adScript productName = Except.error e) := by
  refine ⟨?_, ?_, ?_⟩
  · intro l
    constructor
    · intro h
      exact Gemini.promiseAll_ok_elim _ l h
    · intro h
      unfold Gemini.generateAdImages
      rw [h]
      exact Gemini.promiseAll_ok_intro l
  · intro l h
    have hmap := Gemini.promiseAll_ok_elim _ l h
    have hlen : ((Gemini.adImagePrompts productName adScript).map
        (Gemini.imageRequest api)).length
        = (l.map (Except.ok : String → Except String String)).length := by
      rw [hmap]
    simp [Gemini.adImagePrompts] at hlen
    omega
  · intro i e h hprev
    exact Gemini.promiseAll_first_error _ i e h hprev

/-- Witness for C7 at a concrete input: a provider failing every request
makes the batch reject with that failure. -/
theorem c7_witness :
    Gemini.generateAdImages (fun _ => Except.error "boom") "skrip" "produk"
      = Except.error "boom" :=
  (c7_batch_all_or_nothing (fun _ => Except.error "boom") "skrip" "produk").2.2 0 "boom"
    rfl (fun j hj _ _ => absurd hj (Nat.not_lt_zero j))

/-- Claim C8: the gender classifier returns the fixed default `female` on
every provider error and on every response whose trimmed lowercased text is
not exactly `male`, returns `male` exactly when that text is `male`, and in
all cases returns a label rather than raising. -/
theorem c8_gender_classifier_defaults :
    (∀ e, Gemini.determineModelGender (Except.error e) = Gemini.Gender.female) ∧
    (∀ t, Gemini.determineModelGender (Except.ok t)
        = if t.trim.toLower = "male" then Gemini.Gender.male
          else Gemini.Gender.female) ∧
    (∀ r, Gemini.determineModelGender r = Gemini.Gender.male
        ∨ Gemini.determineModelGender r = Gemini.Gender.female) := by
  refine ⟨fun e => rfl, fun t => rfl, fun r => ?_⟩
  cases h : Gemini.determineModelGender r with
  | male => exact Or.inl rfl
  | female => exact Or.inr rfl

/-- Claim C9: the audio post-processing graph is exactly the fixed chain the
code builds — a source at playback rate 1.3 for voice `leda` and 1 otherwise,
a dynamics compressor (threshold −40, knee 30, compression quotient 12,
attack 0.003, release 0.25) inserted only for style `berbisik`, and a final
gain of 1.5 for `teriak`, 2.5 for `berbisik` and 1 otherwise — and the
re-encode writes a 16-bit PCM WAV header. -/
theorem c9_effects_chain (style voiceName : String) :
    AudioFx.processAudioChain style voiceName
      = AudioFx.AudioNode.source (if voiceName = "leda" then (13 / 10 : ℚ) else 1)
        :: ((if style = "berbisik"
              then [AudioFx.AudioNode.compressor (-40) 30 12 (3 / 1000) (1 / 4)]
              else [])
          ++ [AudioFx.AudioNode.gain
                (if style = "teriak" then (3 / 2 : ℚ)
                 else if style = "berbisik" then 5 / 2 else 1)]) ∧
    (∀ numChannels sampleRate : Nat,
      (AudioFx.audioBufferToWavHeader numChannels sampleRate).bitsPerSample = 16 ∧
      (AudioFx.audioBufferToWavHeader numChannels sampleRate).audioFormat = 1) := by
  constructor
  · unfold AudioFx.processAudioChain
    by_cases hb : style = "berbisik" <;> simp [hb]
  · intro nc sr
    exact ⟨rfl, rfl⟩

/-- Claim C10: caption/hashtag generation always returns a pair — on any
provider error the fixed Indonesian fallback pair (whose caption splices in
the product name and whose hashtag string holds exactly five hashtags), and
on a response without a `Caption:` or `Hashtags:` line the respective fixed
defaults. -/
theorem c10_caption_fallbacks (productName productDescription : String) :
    (∀ e, Gemini.generateCaptionAndHashtags productName productDescription
        (Except.error e)
      = ("Wajib coba " ++ productName ++ "! âœ¨",
         "#fyp #racuntiktok #productreview #xyzbca #tiktokmademebuyit")) ∧
    (("#fyp #racuntiktok #productreview #xyzbca #tiktokmademebuyit".data.filter
        (fun c => c = '#')).length = 5) ∧
    (∀ t, Gemini.regexLineCapture "Caption: " t = none →
        (Gemini.generateCaptionAndHashtags productName productDescription
          (Except.ok t)).1 = "Check this out!") ∧
    (∀ t, Gemini.regexLineCapture "Hashtags: " t = none →
        (Gemini.generateCaptionAndHashtags productName productDescription
          (Except.ok t)).2 = "#fyp #racuntiktok") := by
  refine ⟨fun e => rfl, by decide, ?_, ?_⟩
  · intro t h
    simp [Gemini.generateCaptionAndHashtags, h]
  · intro t h
    simp [Gemini.generateCaptionAndHashtags, h]

/-- Witness for C10 at a concrete input: a response text with neither marker
line yields both fixed defaults. -/
theorem c10_witness :
    (Gemini.generateCaptionAndHashtags "Serum" "deskripsi" (Except.ok "halo")).1
      = "Check this out!" ∧
    (Gemini.generateCaptionAndHashtags "Serum" "deskripsi" (Except.ok "halo")).2
      = "#fyp #racuntiktok" :=
  ⟨(c10_caption_fallbacks "Serum" "deskripsi").2.2.1 "halo" (by decide),
   (c10_caption_fallbacks "Serum" "deskripsi").2.2.2 "halo" (by decide)⟩
